import Mathlib

/-!
Shallow embedding of the authentication/token lifecycle and request-dispatch
layer of the spotify-rs crate (src/spotify-rs/src/auth.rs, client.rs,
error.rs, lib.rs).

Modelling conventions:
* timestamps (chrono DateTime<Utc>) are integers counting whole seconds
  since the Unix epoch; the chrono validity range and the chrono Duration
  range are modelled by explicit bounds, so that the panics of
  chrono::Duration::seconds and of DateTime + Duration show up as `none`;
* a function that can panic returns `Option`; `none` means panic;
* network I/O is modelled by oracle parameters (the response the server
  would give) plus an explicit trace of the network calls issued, so that
  "no network I/O happens" is the statement that the trace is empty;
* serde deserializers for the generic response type are parameters
  (`jsonDec` for serde\x5fjson::from\x5fslice, `bareDec` for the fallback
  BytesDeserializer attempt), since the target type is generic in the
  source as well.
-/

namespace SpotifyRs

/-- i64::MAX. -/
def i64Max : Int := 9223372036854775807

/-- Upper bound, in whole seconds, of chrono::Duration (i64::MAX milliseconds);
Duration::seconds panics beyond it. -/
def chronoDurMaxSecs : Int := 9223372036854775

/-- Unix timestamp in seconds of chrono NaiveDateTime::MIN
(-262143-01-01 00:00:00). -/
def chronoDtMinSec : Int := -8334601315200

/-- Unix timestamp in seconds of chrono NaiveDateTime::MAX
(262142-12-31 23:59:59, ignoring the sub-second part). -/
def chronoDtMaxSec : Int := 8210266876799

/-- Rust char::is\x5fwhitespace: the Unicode White-Space code points. -/
def rustIsWhitespace (c : Char) : Bool :=
  let n := c.toNat
  n = 0x9 ∨ n = 0xA ∨ n = 0xB ∨ n = 0xC ∨ n = 0xD ∨ n = 0x20 ∨ n = 0x85
    ∨ n = 0xA0 ∨ n = 0x1680 ∨ (0x2000 ≤ n ∧ n ≤ 0x200A) ∨ n = 0x2028
    ∨ n = 0x2029 ∨ n = 0x202F ∨ n = 0x205F ∨ n = 0x3000

/-- Rust str::trim: whitespace removed at both ends. -/
def rustTrim (s : String) : String :=
  String.mk (((s.data.dropWhile rustIsWhitespace).reverse.dropWhile
    rustIsWhitespace).reverse)

/-- i64::try\x5ffrom(expires\x5fin).unwrap\x5for(i64::MAX): the u64 seconds value,
clamped to i64::MAX. -/
def clampSecs (expiresIn : Nat) : Int :=
  if (expiresIn : Int) ≤ i64Max then (expiresIn : Int) else i64Max

/-- chrono::Duration::seconds: returns the duration (in seconds), panicking
(`none`) when it exceeds the chrono Duration bounds. -/
def chronoDurationSeconds (s : Int) : Option Int :=
  if -chronoDurMaxSecs ≤ s ∧ s ≤ chronoDurMaxSecs then some s else none

/-- DateTime<Utc> + Duration: panics (`none`) when the sum leaves the
chrono DateTime range. -/
def chronoAddSigned (dt d : Int) : Option Int :=
  if chronoDtMinSec ≤ dt + d ∧ dt + d ≤ chronoDtMaxSec then some (dt + d) else none

/-- The Token struct of auth.rs (the token\x5ftype field is constantly Bearer in
the source and is omitted). -/
structure Token where
  access_token : String
  refresh_token : Option String
  expires_in : Nat
  created_at : Int
  expires_at : Int
  scopes : Option (List String)
deriving Repr, DecidableEq

/-- Token::new of auth.rs: computes
expires\x5fat = created\x5fat + Duration::seconds(i64::try\x5ffrom(expires\x5fin).unwrap\x5for(i64::MAX)).
`none` models the panic of the chrono arithmetic. -/
def Token.new (accessToken : String) (refreshToken : Option String)
    (createdAt : Int) (expiresIn : Nat) (scopes : Option (List String)) :
    Option Token :=
  match chronoDurationSeconds (clampSecs expiresIn) with
  | none => none
  | some d =>
    match chronoAddSigned createdAt d with
    | none => none
    | some expiresAt =>
      some { access_token := accessToken, refresh_token := refreshToken,
             expires_in := expiresIn, created_at := createdAt,
             expires_at := expiresAt, scopes := scopes }

/-- Token::set\x5ftimestamps of auth.rs: re-stamps created\x5fat to now and
recomputes expires\x5fat, all the other fields unchanged. -/
def Token.setTimestamps (t : Token) (now : Int) : Option Token :=
  match chronoDurationSeconds (clampSecs t.expires_in) with
  | none => none
  | some d =>
    match chronoAddSigned now d with
    | none => none
    | some expiresAt => some { t with created_at := now, expires_at := expiresAt }

/-- Token::is\x5fexpired of auth.rs: Utc::now() >= self.expires\x5fat. -/
def Token.isExpired (t : Token) (now : Int) : Bool := t.expires_at ≤ now

/-- Token::secret of auth.rs. -/
def Token.secret (t : Token) : String := t.access_token

/-- Token::is\x5frefreshable of auth.rs. -/
def Token.isRefreshable (t : Token) : Bool := t.refresh_token.isSome

/-- AuthErrorKind of error.rs. -/
inductive AuthErrorKind where
  | serverResponse
  | requestKind
  | parseKind
  | unknown
deriving Repr, DecidableEq

/-- The Error enum, with the variants as constructed in client.rs (the
deserialization variant carries the original serde error text and the
response body, and invalidResponse marks a non-UTF-8 body). -/
inductive Error where
  | authentication (kind : AuthErrorKind) (description : String)
  | notAuthenticated
  | expiredToken
  | invalidStateParameter
  | refreshUnavailable
  | http (description : String)
  | deserialization (source : String) (body : String)
  | invalidResponse
  | spotify (status : Nat) (description : String)
  | parseError (description : String)
  | poisonedLock (description : String)
  | invalidClientState
  | noRemainingPages
deriving Repr, DecidableEq

/-- The UnknownFlow marker of auth.rs. -/
inductive UnknownFlow where
  | mk
deriving Repr, DecidableEq

/-- The ClientCredsFlow marker of auth.rs. -/
inductive ClientCredsFlow where
  | mk
deriving Repr, DecidableEq

/-- The AuthCodeFlow state of auth.rs. -/
structure AuthCodeFlow where
  csrf_token : String
deriving Repr, DecidableEq

/-- The AuthCodePkceFlow state of auth.rs. -/
structure AuthCodePkceFlow where
  csrf_token : String
  pkce_verifier : Option String
deriving Repr, DecidableEq

/-- The API base URL constant of client.rs. -/
def API_URL : String := "https://api.spotify.com/v1"

/-- The reqwest CONTENT-LENGTH header name. -/
def CONTENT_LENGTH : String := "content-length"

/-- The Body enum of client.rs (the payload type is generic over Serialize,
as in the source). -/
inductive Body (P : Type) where
  | json (payload : P)
  | file (bytes : List Nat)
deriving Repr, DecidableEq

/-- The request assembled by Client::request before dispatch: method, URL,
bearer-auth secret, optional query, optional body, and the explicitly added
headers (the source only ever adds CONTENT-LENGTH: 0 here). -/
structure BuiltRequest (Q P : Type) where
  method : String
  url : String
  bearer : String
  query : Option Q
  body : Option (Body P)
  headers : List (String × Nat)
deriving Repr, DecidableEq

/-- One network call, for the I/O traces: a refresh-token exchange, an
authorization-code exchange (with the PKCE verifier when one is sent), the
token-validation probe of the from\x5faccess\x5ftoken constructors, or a
resource-API request. -/
inductive NetCall (Q P : Type) where
  | refreshExchange (refreshSecret : String)
  | codeExchange (code : String) (pkceVerifier : Option String)
  | probe (url : String) (bearer : String)
  | api (req : BuiltRequest Q P)
deriving Repr, DecidableEq

/-- An authenticated Client (client.rs): the auto-refresh flag, the Token
behind the lock, and the flow-variant value. -/
structure ClientState (F : Type) where
  auto_refresh : Bool
  token : Token
  auth_flow : F
deriving Repr, DecidableEq

/-- An unauthenticated Client: no Token yet, only the flag and the flow
state (CSRF/PKCE material). -/
structure UnauthClient (F : Type) where
  auto_refresh : Bool
  auth_flow : F
deriving Repr, DecidableEq

/-- A received HTTP response: status code and body bytes. -/
structure HttpResponse where
  status : Nat
  bytes : List Nat
deriving Repr, DecidableEq

/-- reqwest StatusCode::is\x5fsuccess: 2xx. -/
def isSuccessStatus (s : Nat) : Bool := 200 ≤ s ∧ s < 300

/-- Client::exchange\x5frefresh\x5ftoken of client.rs. The oracle `resp` is the
outcome of the refresh exchange at the token endpoint (the raw token before
set\x5ftimestamps, or the converted OAuth error); `now` is the wall-clock time
at which set\x5ftimestamps runs. Returns the call result, the client state
after the write-lock update, and the trace of network calls; `none` models
a panic. -/
def exchangeRefreshToken {F Q P : Type} (c : ClientState F)
    (resp : Except Error Token) (now : Int) :
    Option (Except Error Unit × ClientState F × List (NetCall Q P)) :=
  match c.token.refresh_token with
  | none => some (Except.error Error.refreshUnavailable, c, [])
  | some rt =>
    match resp with
    | Except.error e => some (Except.error e, c, [NetCall.refreshExchange rt])
    | Except.ok raw =>
      match raw.setTimestamps now with
      | none => none
      | some stamped =>
        let tok := if stamped.refresh_token.isNone
          then { stamped with refresh_token := some rt }
          else stamped
        some (Except.ok (), { c with token := tok }, [NetCall.refreshExchange rt])

/-- Client::from\x5frefresh\x5ftoken of client.rs: bootstraps an authenticated
client (UnknownFlow) from a refresh-token secret. Same oracle convention as
exchangeRefreshToken. -/
def fromRefreshToken {Q P : Type} (autoRefresh : Bool) (refreshToken : String)
    (resp : Except Error Token) (now : Int) :
    Option (Except Error (ClientState UnknownFlow) × List (NetCall Q P)) :=
  match resp with
  | Except.error e => some (Except.error e, [NetCall.refreshExchange refreshToken])
  | Except.ok raw =>
    match raw.setTimestamps now with
    | none => none
    | some stamped =>
      let tok := if stamped.refresh_token.isNone
        then { stamped with refresh_token := some refreshToken }
        else stamped
      some (Except.ok { auto_refresh := autoRefresh, token := tok,
                        auth_flow := UnknownFlow.mk },
            [NetCall.refreshExchange refreshToken])

/-- The request-building section of Client::request (client.rs lines
233-253): base URL plus endpoint, bearer auth from the given secret, the
query and body attached when present, and CONTENT-LENGTH: 0 exactly when no
body is present. -/
def buildRequest {Q P : Type} (method : String) (endpoint : String)
    (secret : String) (query : Option Q) (body : Option (Body P)) :
    BuiltRequest Q P :=
  { method := method, url := API_URL ++ endpoint, bearer := secret,
    query := query, body := body,
    headers := if body.isNone then [(CONTENT_LENGTH, 0)] else [] }

/-- A UTF-8 continuation byte. -/
def contByte (b : Nat) : Bool := 0x80 ≤ b ∧ b ≤ 0xBF

/-- UTF-8 decoding of a byte list (the validity rules of Rust
std::str::from\x5futf8: shortest form only, no surrogates, max U+10FFFF);
`none` means the bytes are not valid UTF-8. -/
def utf8Chars : List Nat → Option (List Char)
  | [] => some []
  | b1 :: t1 =>
    if b1 ≤ 0x7F then
      (utf8Chars t1).map fun cs => Char.ofNat b1 :: cs
    else if 0xC2 ≤ b1 ∧ b1 ≤ 0xDF then
      match t1 with
      | b2 :: t2 =>
        if contByte b2 then
          (utf8Chars t2).map fun cs =>
            Char.ofNat ((b1 - 0xC0) * 0x40 + (b2 - 0x80)) :: cs
        else none
      | [] => none
    else if 0xE0 ≤ b1 ∧ b1 ≤ 0xEF then
      match t1 with
      | b2 :: b3 :: t3 =>
        if (if b1 = 0xE0 then decide (0xA0 ≤ b2 ∧ b2 ≤ 0xBF)
            else if b1 = 0xED then decide (0x80 ≤ b2 ∧ b2 ≤ 0x9F)
            else contByte b2) && contByte b3 then
          (utf8Chars t3).map fun cs =>
            Char.ofNat ((b1 - 0xE0) * 0x1000 + (b2 - 0x80) * 0x40 + (b3 - 0x80)) :: cs
        else none
      | _ => none
    else if 0xF0 ≤ b1 ∧ b1 ≤ 0xF4 then
      match t1 with
      | b2 :: b3 :: b4 :: t4 =>
        if (if b1 = 0xF0 then decide (0x90 ≤ b2 ∧ b2 ≤ 0xBF)
            else if b1 = 0xF4 then decide (0x80 ≤ b2 ∧ b2 ≤ 0x8F)
            else contByte b2) && contByte b3 && contByte b4 then
          (utf8Chars t4).map fun cs =>
            Char.ofNat ((b1 - 0xF0) * 0x40000 + (b2 - 0x80) * 0x1000
              + (b3 - 0x80) * 0x40 + (b4 - 0x80)) :: cs
        else none
      | _ => none
    else none

/-- std::str::from\x5futf8 on the response bytes. -/
def utf8ToString (bs : List Nat) : Option String :=
  (utf8Chars bs).map fun cs => String.mk cs

/-- The Nil sentinel of lib.rs: deserializes successfully from any input. -/
inductive Nil where
  | nil
deriving Repr, DecidableEq

/-- The Deserialize impl of Nil: always Ok(Nil), whatever the input. -/
def Nil.deserialize : List Nat → Option Nil := fun _ => some Nil.nil

/-- The 2xx branch of Client::request (client.rs lines 260-291): first
serde\x5fjson from the bytes, then the fallback attempt straight from the
bytes keeping the FIRST error on failure; if both fail, Deserialization
with the first error and the UTF-8 body, or InvalidResponse when the bytes
are not UTF-8. -/
def handleSuccess {T : Type} (jsonDec : List Nat → Except String T)
    (bareDec : List Nat → Option T) (bytes : List Nat) : Except Error T :=
  let deserialized : Except String T :=
    match jsonDec bytes with
    | Except.ok v => Except.ok v
    | Except.error e =>
      match bareDec bytes with
      | some v => Except.ok v
      | none => Except.error e
  match deserialized with
  | Except.ok content => Except.ok content
  | Except.error err =>
    match utf8ToString bytes with
    | none => Except.error Error.invalidResponse
    | some body => Except.error (Error.deserialization err body)

/-- The non-2xx branch of Client::request: parse the Spotify error envelope
(status, message); when that parse itself fails, the underlying reqwest
error surfaces as Error.http. -/
def handleFailure (envelopeDec : List Nat → Except String (Nat × String))
    (bytes : List Nat) : Error :=
  match envelopeDec bytes with
  | Except.ok sm => Error.spotify sm.1 sm.2
  | Except.error e => Error.http e

/-- Client::request of client.rs (lines 199-295). Oracles: `refreshResp`
for the refresh exchange (consulted only if a refresh is attempted),
`apiResp` for the resource-endpoint call (an Except, because the transport
itself can fail), `jsonDec`/`bareDec` for the two deserialization attempts
of the generic response type, `envelopeDec` for the error envelope. `now`
is the wall clock at the expiry check, `refreshNow` at the set\x5ftimestamps
of the refresh. Faithful detail: the bearer secret of the built request is
the one read BEFORE the refresh (the re-read after the refresh in the
source only feeds a log line). -/
def Client.request {F Q P T : Type} (c : ClientState F)
    (now refreshNow : Int) (refreshResp : Except Error Token)
    (method : String) (endpoint : String)
    (query : Option Q) (body : Option (Body P))
    (apiResp : Except String HttpResponse)
    (jsonDec : List Nat → Except String T) (bareDec : List Nat → Option T)
    (envelopeDec : List Nat → Except String (Nat × String)) :
    Option (Except Error T × ClientState F × List (NetCall Q P)) :=
  let tokenExpired := c.token.isExpired now
  let secret := c.token.access_token
  let afterExpiry : Option (Except Error Unit × ClientState F × List (NetCall Q P)) :=
    if tokenExpired then
      if c.auto_refresh then
        exchangeRefreshToken c refreshResp refreshNow
      else
        some (Except.error Error.expiredToken, c, [])
    else
      some (Except.ok (), c, [])
  match afterExpiry with
  | none => none
  | some (Except.error e, c1, tr) => some (Except.error e, c1, tr)
  | some (Except.ok _, c1, tr) =>
    let req := buildRequest method endpoint secret query body
    let tr2 := tr ++ [NetCall.api req]
    match apiResp with
    | Except.error e => some (Except.error (Error.http e), c1, tr2)
    | Except.ok res =>
      if isSuccessStatus res.status then
        some (handleSuccess jsonDec bareDec res.bytes, c1, tr2)
      else
        some (Except.error (handleFailure envelopeDec res.bytes), c1, tr2)

/-- AuthCodeClient::authenticate of client.rs (lines 382-408): trim the
code and the supplied state, compare the trimmed state with the stored CSRF
secret (the stored secret is NOT trimmed), then exchange the code. -/
def AuthCodeClient.authenticate {Q P : Type} (c : UnauthClient AuthCodeFlow)
    (authCode csrfState : String) (exchangeResp : Except Error Token)
    (now : Int) :
    Option (Except Error (ClientState AuthCodeFlow) × List (NetCall Q P)) :=
  let code := rustTrim authCode
  let state := rustTrim csrfState
  if state ≠ c.auth_flow.csrf_token then
    some (Except.error Error.invalidStateParameter, [])
  else
    match exchangeResp with
    | Except.error e => some (Except.error e, [NetCall.codeExchange code none])
    | Except.ok raw =>
      match raw.setTimestamps now with
      | none => none
      | some tok =>
        some (Except.ok { auto_refresh := c.auto_refresh, token := tok,
                          auth_flow := c.auth_flow },
              [NetCall.codeExchange code none])

/-- AuthCodePkceClient::authenticate of client.rs (lines 465-499): same
CSRF check, then take() the PKCE verifier (leaving none behind) and send it
with the code exchange; a missing verifier is InvalidClientState before any
network call. -/
def AuthCodePkceClient.authenticate {Q P : Type}
    (c : UnauthClient AuthCodePkceFlow) (authCode csrfState : String)
    (exchangeResp : Except Error Token) (now : Int) :
    Option (Except Error (ClientState AuthCodePkceFlow) × List (NetCall Q P)) :=
  let code := rustTrim authCode
  let state := rustTrim csrfState
  if state ≠ c.auth_flow.csrf_token then
    some (Except.error Error.invalidStateParameter, [])
  else
    match c.auth_flow.pkce_verifier with
    | none => some (Except.error Error.invalidClientState, [])
    | some v =>
      match exchangeResp with
      | Except.error e =>
        some (Except.error e, [NetCall.codeExchange code (some v)])
      | Except.ok raw =>
        match raw.setTimestamps now with
        | none => none
        | some tok =>
          some (Except.ok { auto_refresh := c.auto_refresh, token := tok,
                            auth_flow := { c.auth_flow with pkce_verifier := none } },
                [NetCall.codeExchange code (some v)])

/-- AuthCodeClient::from\x5faccess\x5ftoken of client.rs (lines 544-588): probe
GET /markets with the token, then store the token with
auto\x5frefresh = requested flag AND refresh-token presence. -/
def AuthCodeClient.fromAccessToken {Q P : Type} (autoRefresh : Bool)
    (tok : Token) (probeResp : Except String HttpResponse)
    (envelopeDec : List Nat → Except String (Nat × String)) :
    Except Error (ClientState AuthCodeFlow) × List (NetCall Q P) :=
  let call := NetCall.probe (Q := Q) (P := P) (API_URL ++ "/markets") tok.secret
  match probeResp with
  | Except.error e => (Except.error (Error.http e), [call])
  | Except.ok res =>
    if isSuccessStatus res.status then
      (Except.ok { auto_refresh := autoRefresh && tok.refresh_token.isSome,
                   token := tok,
                   auth_flow := { csrf_token := "not needed" } }, [call])
    else
      (Except.error (handleFailure envelopeDec res.bytes), [call])

/-- AuthCodePkceClient::from\x5faccess\x5ftoken of client.rs (lines 597-639):
probe GET /recommendations/available-genre-seeds, then store the token with
auto\x5frefresh = requested flag AND refresh-token presence; no PKCE verifier
is kept. -/
def AuthCodePkceClient.fromAccessToken {Q P : Type} (autoRefresh : Bool)
    (tok : Token) (probeResp : Except String HttpResponse)
    (envelopeDec : List Nat → Except String (Nat × String)) :
    Except Error (ClientState AuthCodePkceFlow) × List (NetCall Q P) :=
  let call := NetCall.probe (Q := Q) (P := P)
    (API_URL ++ "/recommendations/available-genre-seeds") tok.secret
  match probeResp with
  | Except.error e => (Except.error (Error.http e), [call])
  | Except.ok res =>
    if isSuccessStatus res.status then
      (Except.ok { auto_refresh := autoRefresh && tok.refresh_token.isSome,
                   token := tok,
                   auth_flow := { csrf_token := "not needed",
                                  pkce_verifier := none } }, [call])
    else
      (Except.error (handleFailure envelopeDec res.bytes), [call])

/-! Helper lemmas shared by the claim theorems. -/

theorem clampSecs_nonneg (n : Nat) : 0 ≤ clampSecs n := by
  unfold clampSecs
  split
  · exact Int.natCast_nonneg n
  · norm_num [i64Max]

theorem clampSecs_eq_min (n : Nat) : clampSecs n = min (n : Int) i64Max := by
  unfold clampSecs
  rcases le_or_lt (n : Int) i64Max with h | h
  · rw [if_pos h, min_eq_left h]
  · rw [if_neg (not_le.mpr h), min_eq_right h.le]

theorem setTimestamps_eq (t : Token) (now : Int)
    (hd : clampSecs t.expires_in ≤ chronoDurMaxSecs)
    (hlo : chronoDtMinSec ≤ now + clampSecs t.expires_in)
    (hhi : now + clampSecs t.expires_in ≤ chronoDtMaxSec) :
    t.setTimestamps now
      = some { t with created_at := now,
                      expires_at := now + clampSecs t.expires_in } := by
  have h0 : -chronoDurMaxSecs ≤ clampSecs t.expires_in :=
    le_trans (by norm_num [chronoDurMaxSecs]) (clampSecs_nonneg _)
  unfold Token.setTimestamps chronoDurationSeconds chronoAddSigned
  rw [if_pos ⟨h0, hd⟩]
  dsimp only
  rw [if_pos ⟨hlo, hhi⟩]

theorem tokenNew_eq (a : String) (r : Option String) (ca : Int) (ei : Nat)
    (sc : Option (List String))
    (hd : clampSecs ei ≤ chronoDurMaxSecs)
    (hlo : chronoDtMinSec ≤ ca + clampSecs ei)
    (hhi : ca + clampSecs ei ≤ chronoDtMaxSec) :
    Token.new a r ca ei sc
      = some { access_token := a, refresh_token := r, expires_in := ei,
               created_at := ca, expires_at := ca + clampSecs ei,
               scopes := sc } := by
  have h0 : -chronoDurMaxSecs ≤ clampSecs ei :=
    le_trans (by norm_num [chronoDurMaxSecs]) (clampSecs_nonneg _)
  unfold Token.new chronoDurationSeconds chronoAddSigned
  rw [if_pos ⟨h0, hd⟩]
  dsimp only
  rw [if_pos ⟨hlo, hhi⟩]

/-- Claim C8 counterexample: the claim says Token::new never panics, for
every u64 expires-in value, clamping on overflow. But at
expires-in = i64::MAX (a legal u64) the clamped seconds value exceeds the
chrono Duration bound, chrono Duration::seconds panics, and Token::new
panics with it (modelled as none) instead of returning a clamped Token. -/
theorem claim_C8_counterexample :
    Token.new "a" none 0 9223372036854775807 none = none := by
  have hlt : ¬ ((9223372036854775807 : Int) ≤ chronoDurMaxSecs) := by
    norm_num [chronoDurMaxSecs]
  have hc : clampSecs 9223372036854775807 = (9223372036854775807 : Int) := by
    unfold clampSecs
    rw [if_pos (by norm_num [i64Max])]
    norm_num
  unfold Token.new chronoDurationSeconds
  rw [hc, if_neg (fun h => hlt h.2)]

/-- Claim C8 (amended): Token::new clamps the u64 expires-in value to
i64::MAX (the conversion itself never panics), and whenever the clamped
seconds value is within the chrono Duration bound and the sum stays inside
the chrono DateTime range, it returns a Token with
expires-at = created-at + min(expires-in, i64::MAX) seconds; when the
clamped value exceeds the chrono Duration bound, Token::new panics rather
than clamping expires-at to the maximum representable time. -/
theorem claim_C8 (a : String) (r : Option String) (ca : Int) (ei : Nat)
    (sc : Option (List String))
    (hd : clampSecs ei ≤ chronoDurMaxSecs)
    (hlo : chronoDtMinSec ≤ ca + clampSecs ei)
    (hhi : ca + clampSecs ei ≤ chronoDtMaxSec) :
    Token.new a r ca ei sc
      = some { access_token := a, refresh_token := r, expires_in := ei,
               created_at := ca,
               expires_at := ca + min (ei : Int) i64Max,
               scopes := sc }
    ∧ ∀ ei2 : Nat, chronoDurMaxSecs < clampSecs ei2 →
        Token.new a r ca ei2 sc = none := by
  constructor
  · rw [tokenNew_eq a r ca ei sc hd hlo hhi, clampSecs_eq_min]
  · intro ei2 h2
    unfold Token.new chronoDurationSeconds
    rw [if_neg (fun h => absurd h.2 (not_le.mpr h2))]

/-- Claim C8 witness: the amended theorem applied at a concrete token. -/
theorem claim_C8_witness :
    Token.new "a" (some "r") 100 3600 none
      = some { access_token := "a", refresh_token := some "r",
               expires_in := 3600, created_at := 100,
               expires_at := 100 + min (3600 : Int) i64Max,
               scopes := none } := by
  exact (claim_C8 "a" (some "r") 100 3600 none
    (by norm_num [clampSecs, i64Max, chronoDurMaxSecs])
    (by norm_num [clampSecs, i64Max, chronoDtMinSec])
    (by norm_num [clampSecs, i64Max, chronoDtMaxSec])).1

/-- Claim C5: exchange-refresh-token on a client whose Token carries no
refresh-token secret returns RefreshUnavailable with an empty network
trace, for every flow type F, every oracle response and every time. -/
theorem claim_C5 {F Q P : Type} (c : ClientState F)
    (resp : Except Error Token) (now : Int)
    (h : c.token.refresh_token = none) :
    exchangeRefreshToken (Q := Q) (P := P) c resp now
      = some (Except.error Error.refreshUnavailable, c, []) := by
  unfold exchangeRefreshToken
  rw [h]

/-- Claim C5 witness: a concrete client without refresh secret. -/
theorem claim_C5_witness :
    exchangeRefreshToken (Q := Unit) (P := Unit)
        { auto_refresh := true,
          token := { access_token := "AT1", refresh_token := none,
                     expires_in := 3600, created_at := 0, expires_at := 3600,
                     scopes := none },
          auth_flow := ClientCredsFlow.mk }
        (Except.error (Error.http "unused")) 0
      = some (Except.error Error.refreshUnavailable,
          { auto_refresh := true,
            token := { access_token := "AT1", refresh_token := none,
                       expires_in := 3600, created_at := 0, expires_at := 3600,
                       scopes := none },
            auth_flow := ClientCredsFlow.mk }, []) :=
  claim_C5 _ _ _ rfl

/-- Claim C4: a refresh exchange (and the from-refresh-token bootstrap)
whose response omits a refresh token keeps the previous refresh secret R;
one that supplies R2 keeps R2; in both cases created-at is re-stamped to
the current time and expires-at recomputed from it. -/
theorem claim_C4 {F Q P : Type} (c : ClientState F) (R : String) (raw : Token)
    (now : Int) (ar : Bool)
    (hR : c.token.refresh_token = some R)
    (hd : clampSecs raw.expires_in ≤ chronoDurMaxSecs)
    (hlo : chronoDtMinSec ≤ now + clampSecs raw.expires_in)
    (hhi : now + clampSecs raw.expires_in ≤ chronoDtMaxSec) :
    (raw.refresh_token = none →
      exchangeRefreshToken (Q := Q) (P := P) c (Except.ok raw) now
        = some (Except.ok (),
            { c with
                token := { raw with
                             refresh_token := some R,
                             created_at := now,
                             expires_at := now + clampSecs raw.expires_in } },
            [NetCall.refreshExchange R])) ∧
    (∀ R2, raw.refresh_token = some R2 →
      exchangeRefreshToken (Q := Q) (P := P) c (Except.ok raw) now
        = some (Except.ok (),
            { c with
                token := { raw with
                             created_at := now,
                             expires_at := now + clampSecs raw.expires_in } },
            [NetCall.refreshExchange R])) ∧
    (raw.refresh_token = none →
      fromRefreshToken (Q := Q) (P := P) ar R (Except.ok raw) now
        = some (Except.ok
            { auto_refresh := ar,
              token := { raw with
                           refresh_token := some R,
                           created_at := now,
                           expires_at := now + clampSecs raw.expires_in },
              auth_flow := UnknownFlow.mk },
            [NetCall.refreshExchange R])) ∧
    (∀ R2, raw.refresh_token = some R2 →
      fromRefreshToken (Q := Q) (P := P) ar R (Except.ok raw) now
        = some (Except.ok
            { auto_refresh := ar,
              token := { raw with
                           created_at := now,
                           expires_at := now + clampSecs raw.expires_in },
              auth_flow := UnknownFlow.mk },
            [NetCall.refreshExchange R])) := by
  have hst := setTimestamps_eq raw now hd hlo hhi
  refine ⟨?_, ?_, ?_, ?_⟩
  · intro hnone
    unfold exchangeRefreshToken
    rw [hR]
    dsimp only
    rw [hst]
    simp [hnone]
  · intro R2 hsome
    unfold exchangeRefreshToken
    rw [hR]
    dsimp only
    rw [hst]
    simp [hsome]
  · intro hnone
    unfold fromRefreshToken
    dsimp only
    rw [hst]
    simp [hnone]
  · intro R2 hsome
    unfold fromRefreshToken
    dsimp only
    rw [hst]
    simp [hsome]

/-- Claim C4 witness: a concrete refresh with the response omitting the
refresh token, at time 5000. -/
theorem claim_C4_witness :
    exchangeRefreshToken (Q := Unit) (P := Unit)
        { auto_refresh := true,
          token := { access_token := "AT1", refresh_token := some "RT1",
                     expires_in := 3600, created_at := 0, expires_at := 3600,
                     scopes := none },
          auth_flow := UnknownFlow.mk }
        (Except.ok { access_token := "AT2", refresh_token := none,
                     expires_in := 7200, created_at := 0, expires_at := 0,
                     scopes := none }) 5000
      = some (Except.ok (),
          { auto_refresh := true,
            token := { access_token := "AT2", refresh_token := some "RT1",
                       expires_in := 7200, created_at := 5000,
                       expires_at := 5000 + clampSecs 7200, scopes := none },
            auth_flow := UnknownFlow.mk },
          [NetCall.refreshExchange "RT1"]) := by
  exact (claim_C4
    { auto_refresh := true,
      token := { access_token := "AT1", refresh_token := some "RT1",
                 expires_in := 3600, created_at := 0, expires_at := 3600,
                 scopes := none },
      auth_flow := UnknownFlow.mk }
    "RT1"
    { access_token := "AT2", refresh_token := none, expires_in := 7200,
      created_at := 0, expires_at := 0, scopes := none }
    5000 true rfl (by decide) (by decide) (by decide)).1 rfl

theorem requestExpiredOff {F Q P T : Type} (c : ClientState F)
    (now refreshNow : Int) (refreshResp : Except Error Token)
    (method endpoint : String) (query : Option Q) (body : Option (Body P))
    (apiResp : Except String HttpResponse)
    (jsonDec : List Nat → Except String T) (bareDec : List Nat → Option T)
    (envelopeDec : List Nat → Except String (Nat × String))
    (hexp : c.token.isExpired now = true) (hoff : c.auto_refresh = false) :
    Client.request c now refreshNow refreshResp method endpoint query body
        apiResp jsonDec bareDec envelopeDec
      = some (Except.error Error.expiredToken, c, []) := by
  unfold Client.request
  rw [hexp, hoff]
  rfl

/-- Claim C2: a request on an expired Token with auto-refresh disabled
returns ExpiredToken with an empty network trace: neither a resource call
nor a refresh exchange is issued, for every method, query, body and oracle.
-/
theorem claim_C2 {F Q P T : Type} (c : ClientState F)
    (now refreshNow : Int) (refreshResp : Except Error Token)
    (method endpoint : String) (query : Option Q) (body : Option (Body P))
    (apiResp : Except String HttpResponse)
    (jsonDec : List Nat → Except String T) (bareDec : List Nat → Option T)
    (envelopeDec : List Nat → Except String (Nat × String))
    (hexp : c.token.isExpired now = true) (hoff : c.auto_refresh = false) :
    Client.request c now refreshNow refreshResp method endpoint query body
        apiResp jsonDec bareDec envelopeDec
      = some (Except.error Error.expiredToken, c, []) :=
  requestExpiredOff c now refreshNow refreshResp method endpoint query body
    apiResp jsonDec bareDec envelopeDec hexp hoff

/-- Claim C2 witness: a concrete expired client with auto-refresh off. -/
theorem claim_C2_witness :
    Client.request (T := Nil)
        { auto_refresh := false,
          token := { access_token := "AT1", refresh_token := some "RT1",
                     expires_in := 3600, created_at := 0, expires_at := 3600,
                     scopes := none },
          auth_flow := UnknownFlow.mk }
        4000 4000 (Except.ok { access_token := "AT2", refresh_token := none,
                               expires_in := 3600, created_at := 0,
                               expires_at := 0, scopes := none })
        "GET" "/me" (none : Option Unit) (none : Option (Body Unit))
        (Except.ok { status := 200, bytes := [] })
        (fun _ => Except.error "EOF") Nil.deserialize
        (fun _ => Except.error "no envelope")
      = some (Except.error Error.expiredToken,
          { auto_refresh := false,
            token := { access_token := "AT1", refresh_token := some "RT1",
                       expires_in := 3600, created_at := 0, expires_at := 3600,
                       scopes := none },
            auth_flow := UnknownFlow.mk }, []) :=
  claim_C2
    { auto_refresh := false,
      token := { access_token := "AT1", refresh_token := some "RT1",
                 expires_in := 3600, created_at := 0, expires_at := 3600,
                 scopes := none },
      auth_flow := UnknownFlow.mk }
    4000 4000 (Except.ok { access_token := "AT2", refresh_token := none,
                           expires_in := 3600, created_at := 0,
                           expires_at := 0, scopes := none })
    "GET" "/me" none none (Except.ok { status := 200, bytes := [] })
    (fun _ => Except.error "EOF") Nil.deserialize
    (fun _ => Except.error "no envelope") (by decide) rfl

/-- Claim C1 failing input, evaluated: an expired client (access secret
AT1, refresh secret RT1) with auto-refresh enabled; the refresh exchange
answers with a fresh token AT2. The refresh runs to completion and the
stored Token does become AT2 (with RT1 preserved), BUT the dispatched API
request carries the PRE-refresh secret AT1 as its bearer: the source binds
the secret before the refresh and the post-refresh read-lock only feeds a
log line. The claim (and the spec) say the bearer must be AT2. -/
theorem claim_C1_bug :
    Client.request (T := Nil)
        { auto_refresh := true,
          token := { access_token := "AT1", refresh_token := some "RT1",
                     expires_in := 3600, created_at := 0, expires_at := 3600,
                     scopes := none },
          auth_flow := UnknownFlow.mk }
        4000 4000
        (Except.ok { access_token := "AT2", refresh_token := none,
                     expires_in := 3600, created_at := 0, expires_at := 0,
                     scopes := none })
        "GET" "/me" (none : Option Unit) (none : Option (Body Unit))
        (Except.ok { status := 200, bytes := [] })
        (fun _ => Except.error "EOF") Nil.deserialize
        (fun _ => Except.error "no envelope")
      = some (Except.ok Nil.nil,
          { auto_refresh := true,
            token := { access_token := "AT2", refresh_token := some "RT1",
                       expires_in := 3600, created_at := 4000,
                       expires_at := 7600, scopes := none },
            auth_flow := UnknownFlow.mk },
          [NetCall.refreshExchange "RT1",
           NetCall.api { method := "GET",
                         url := "https://api.spotify.com/v1/me",
                         bearer := "AT1", query := none, body := none,
                         headers := [(CONTENT_LENGTH, 0)] }]) := by
  rfl

/-- Claim C3 counterexample: the claim says BOTH the supplied state and the
stored CSRF secret are trimmed before the byte-for-byte comparison, and
that InvalidStateParameter is returned iff the TRIMMED values differ. With
stored secret " S" and supplied state "S" the trimmed values coincide, yet
the source trims only the supplied state, compares "S" with " S", and
fails with InvalidStateParameter. -/
theorem claim_C3_counterexample :
    rustTrim " S" = rustTrim "S" ∧
    AuthCodeClient.authenticate (Q := Unit) (P := Unit)
        { auto_refresh := true, auth_flow := { csrf_token := " S" } }
        "code" "S" (Except.error (Error.http "unused")) 0
      = some (Except.error Error.invalidStateParameter, []) := by
  exact ⟨rfl, rfl⟩

/-- Claim C3 (amended): authenticate trims the supplied state of
surrounding whitespace and compares it byte-for-byte with the stored CSRF
secret AS IS (the stored secret is not trimmed); it returns
InvalidStateParameter with zero network calls exactly when the trimmed
supplied state differs from the untrimmed stored secret, on both the
AuthCode and the AuthCodePkce client. -/
theorem claim_C3 {Q P : Type} (c : UnauthClient AuthCodeFlow)
    (c2 : UnauthClient AuthCodePkceFlow) (code state : String)
    (resp : Except Error Token) (now : Int) :
    (AuthCodeClient.authenticate (Q := Q) (P := P) c code state resp now
        = some (Except.error Error.invalidStateParameter, [])
      ↔ rustTrim state ≠ c.auth_flow.csrf_token) ∧
    (AuthCodePkceClient.authenticate (Q := Q) (P := P) c2 code state resp now
        = some (Except.error Error.invalidStateParameter, [])
      ↔ rustTrim state ≠ c2.auth_flow.csrf_token) := by
  constructor
  · by_cases h : rustTrim state = c.auth_flow.csrf_token
    · simp only [AuthCodeClient.authenticate]
      rw [if_neg (by simp [h])]
      cases resp with
      | error e => simp [h]
      | ok raw =>
        cases hst : raw.setTimestamps now with
        | none => simp [h, hst]
        | some tok => simp [h, hst]
    · simp only [AuthCodeClient.authenticate]
      rw [if_pos h]
      simp [h]
  · by_cases h : rustTrim state = c2.auth_flow.csrf_token
    · simp only [AuthCodePkceClient.authenticate]
      rw [if_neg (by simp [h])]
      cases hv : c2.auth_flow.pkce_verifier with
      | none => simp [h, hv]
      | some v =>
        cases resp with
        | error e => simp [h, hv]
        | ok raw =>
          cases hst : raw.setTimestamps now with
          | none => simp [h, hv, hst]
          | some tok => simp [h, hv, hst]
    · simp only [AuthCodePkceClient.authenticate]
      rw [if_pos h]
      simp [h]

/-- Claim C3 witness: the amended equivalence at concrete values. -/
theorem claim_C3_witness :
    (AuthCodeClient.authenticate (Q := Unit) (P := Unit)
        { auto_refresh := true, auth_flow := { csrf_token := "X" } }
        "code" "Y" (Except.error (Error.http "unused")) 0
      = some (Except.error Error.invalidStateParameter, [])
      ↔ rustTrim "Y" ≠ "X") :=
  (claim_C3
    { auto_refresh := true, auth_flow := { csrf_token := "X" } }
    { auto_refresh := true,
      auth_flow := { csrf_token := "X", pkce_verifier := some "V" } }
    "code" "Y" (Except.error (Error.http "unused")) 0).1

/-- Claim C7: on a PKCE authenticate call that passes the CSRF check, the
stored verifier is consumed exactly once (the resulting flow state holds
none) and is supplied to the token exchange; when it is already absent,
authenticate fails with InvalidClientState before any network call, and
never runs the exchange without the PKCE parameter. -/
theorem claim_C7 {Q P : Type} (c : UnauthClient AuthCodePkceFlow)
    (code state : String) (resp : Except Error Token) (now : Int)
    (hcsrf : rustTrim state = c.auth_flow.csrf_token) :
    (c.auth_flow.pkce_verifier = none →
      AuthCodePkceClient.authenticate (Q := Q) (P := P) c code state resp now
        = some (Except.error Error.invalidClientState, [])) ∧
    (∀ v, c.auth_flow.pkce_verifier = some v →
      (∀ e, resp = Except.error e →
        AuthCodePkceClient.authenticate (Q := Q) (P := P) c code state resp now
          = some (Except.error e,
              [NetCall.codeExchange (rustTrim code) (some v)])) ∧
      (∀ raw stamped, resp = Except.ok raw →
        raw.setTimestamps now = some stamped →
        AuthCodePkceClient.authenticate (Q := Q) (P := P) c code state resp now
          = some (Except.ok
              { auto_refresh := c.auto_refresh, token := stamped,
                auth_flow := { csrf_token := c.auth_flow.csrf_token,
                               pkce_verifier := none } },
              [NetCall.codeExchange (rustTrim code) (some v)]))) := by
  refine ⟨?_, ?_⟩
  · intro hv
    simp only [AuthCodePkceClient.authenticate]
    rw [if_neg (by simp [hcsrf])]
    rw [hv]
  · intro v hv
    refine ⟨?_, ?_⟩
    · intro e he
      simp only [AuthCodePkceClient.authenticate]
      rw [if_neg (by simp [hcsrf])]
      rw [hv, he]
    · intro raw stamped hraw hst
      simp only [AuthCodePkceClient.authenticate]
      rw [if_neg (by simp [hcsrf])]
      rw [hv, hraw]
      dsimp only
      rw [hst]

/-- Claim C7 witness: consuming a present verifier at a concrete input. -/
theorem claim_C7_witness :
    AuthCodePkceClient.authenticate (Q := Unit) (P := Unit)
        { auto_refresh := true,
          auth_flow := { csrf_token := "X", pkce_verifier := some "V" } }
        "code" "X" (Except.error (Error.http "down")) 0
      = some (Except.error (Error.http "down"),
          [NetCall.codeExchange (rustTrim "code") (some "V")]) :=
  ((claim_C7
    { auto_refresh := true,
      auth_flow := { csrf_token := "X", pkce_verifier := some "V" } }
    "code" "X" (Except.error (Error.http "down")) 0 rfl).2
    "V" rfl).1 (Error.http "down") rfl

/-- Claim C6: on a 2xx response the bytes are decoded as JSON first; on
failure a second attempt decodes straight from the bytes (always
succeeding for the Nil sentinel); only if both fail is a Deserialization
error returned carrying the FIRST (JSON) error and the UTF-8 body text,
and InvalidResponse instead when the bytes are not valid UTF-8. -/
theorem claim_C6 {T : Type} (jsonDec : List Nat → Except String T)
    (bareDec : List Nat → Option T) (bytes : List Nat) :
    (∀ v, jsonDec bytes = Except.ok v →
      handleSuccess jsonDec bareDec bytes = Except.ok v) ∧
    (∀ e v, jsonDec bytes = Except.error e → bareDec bytes = some v →
      handleSuccess jsonDec bareDec bytes = Except.ok v) ∧
    (∀ e s, jsonDec bytes = Except.error e → bareDec bytes = none →
      utf8ToString bytes = some s →
      handleSuccess jsonDec bareDec bytes
        = Except.error (Error.deserialization e s)) ∧
    (∀ e, jsonDec bytes = Except.error e → bareDec bytes = none →
      utf8ToString bytes = none →
      handleSuccess jsonDec bareDec bytes = Except.error Error.invalidResponse) ∧
    (∀ jd : List Nat → Except String Nil, ∀ e, jd bytes = Except.error e →
      handleSuccess jd Nil.deserialize bytes = Except.ok Nil.nil) := by
  refine ⟨?_, ?_, ?_, ?_, ?_⟩
  · intro v hj
    simp only [handleSuccess, hj]
  · intro e v hj hb
    simp only [handleSuccess, hj, hb]
  · intro e s hj hb hu
    simp only [handleSuccess, hj, hb, hu]
  · intro e hj hb hu
    simp only [handleSuccess, hj, hb, hu]
  · intro jd e hj
    simp only [handleSuccess, hj, Nil.deserialize]

/-- Claim C6 witness: the invalid-UTF-8 branch at byte 0xFF and the Nil
fallback on an empty body. -/
theorem claim_C6_witness :
    handleSuccess (fun _ => Except.error "expected value")
        (fun _ => (none : Option Nat)) [255]
      = Except.error Error.invalidResponse ∧
    handleSuccess (fun _ => Except.error "EOF while parsing")
        Nil.deserialize []
      = Except.ok Nil.nil := by
  constructor
  · exact (claim_C6 (fun _ => Except.error "expected value")
      (fun _ => (none : Option Nat)) [255]).2.2.2.1 "expected value" rfl rfl rfl
  · exact (claim_C6 (fun _ => Except.error ("EOF while parsing" : String))
      (fun _ => (none : Option Nil)) []).2.2.2.2
      (fun _ => Except.error "EOF while parsing") "EOF while parsing" rfl

/-- Claim C9: every resource-API request that Client::request dispatches
carries CONTENT-LENGTH: 0 among its explicitly set headers exactly when no
body is present, whatever the method, the query, the expiry state and the
oracles; with a body present no such header is set. -/
theorem claim_C9 {F Q P T : Type} (c : ClientState F) (now refreshNow : Int)
    (refreshResp : Except Error Token) (method endpoint : String)
    (query : Option Q) (body : Option (Body P))
    (apiResp : Except String HttpResponse)
    (jsonDec : List Nat → Except String T) (bareDec : List Nat → Option T)
    (envelopeDec : List Nat → Except String (Nat × String))
    (res : Except Error T) (c1 : ClientState F) (tr : List (NetCall Q P))
    (h : Client.request c now refreshNow refreshResp method endpoint query
           body apiResp jsonDec bareDec envelopeDec = some (res, c1, tr)) :
    ∀ r, NetCall.api r ∈ tr →
      r.headers = (if body.isNone then [(CONTENT_LENGTH, 0)] else []) := by
  intro r hr
  unfold Client.request at h
  cases hexp : c.token.isExpired now with
  | false =>
    cases apiResp with
    | error e =>
      simp [hexp] at h
      obtain ⟨-, -, htr⟩ := h
      subst htr
      simp only [List.mem_singleton] at hr
      cases hr
      rfl
    | ok r2 =>
      cases hss : isSuccessStatus r2.status with
      | true =>
        simp [hexp, hss] at h
        obtain ⟨-, -, htr⟩ := h
        subst htr
        simp only [List.mem_singleton] at hr
        cases hr
        rfl
      | false =>
        simp [hexp, hss] at h
        obtain ⟨-, -, htr⟩ := h
        subst htr
        simp only [List.mem_singleton] at hr
        cases hr
        rfl
  | true =>
    cases har : c.auto_refresh with
    | false =>
      simp [hexp, har] at h
      obtain ⟨-, -, htr⟩ := h
      subst htr
      simp at hr
    | true =>
      unfold exchangeRefreshToken at h
      cases hrt : c.token.refresh_token with
      | none =>
        simp [hexp, har, hrt] at h
        obtain ⟨-, -, htr⟩ := h
        subst htr
        simp at hr
      | some rt =>
        cases refreshResp with
        | error e =>
          simp [hexp, har, hrt] at h
          obtain ⟨-, -, htr⟩ := h
          subst htr
          simp at hr
        | ok raw =>
          cases hst : raw.setTimestamps refreshNow with
          | none =>
            simp [hexp, har, hrt, hst] at h
          | some st =>
            cases apiResp with
            | error e =>
              simp [hexp, har, hrt, hst] at h
              obtain ⟨-, -, htr⟩ := h
              subst htr
              simp only [List.mem_cons, List.not_mem_nil, or_false] at hr
              rcases hr with hr | hr
              · simp at hr
              · cases hr
                rfl
            | ok r2 =>
              cases hss : isSuccessStatus r2.status with
              | true =>
                simp [hexp, har, hrt, hst, hss] at h
                obtain ⟨-, -, htr⟩ := h
                subst htr
                simp only [List.mem_cons, List.not_mem_nil, or_false] at hr
                rcases hr with hr | hr
                · simp at hr
                · cases hr
                  rfl
              | false =>
                simp [hexp, har, hrt, hst, hss] at h
                obtain ⟨-, -, htr⟩ := h
                subst htr
                simp only [List.mem_cons, List.not_mem_nil, or_false] at hr
                rcases hr with hr | hr
                · simp at hr
                · cases hr
                  rfl

/-- Claim C9 witness: a concrete GET with no body dispatches with the
CONTENT-LENGTH: 0 header. -/
theorem claim_C9_witness :
    (buildRequest (Q := Unit) (P := Unit) "GET" "/me" "AT1" none none).headers
      = (if (none : Option (Body Unit)).isNone
          then [(CONTENT_LENGTH, 0)] else []) :=
  claim_C9
    { auto_refresh := false,
      token := { access_token := "AT1", refresh_token := none,
                 expires_in := 3600, created_at := 0, expires_at := 3600,
                 scopes := none },
      auth_flow := UnknownFlow.mk }
    0 0 (Except.error (Error.http "unused")) "GET" "/me" none none
    (Except.ok { status := 200, bytes := [] })
    (fun _ => Except.error "EOF") Nil.deserialize
    (fun _ => Except.error "no envelope")
    (Except.ok Nil.nil)
    { auto_refresh := false,
      token := { access_token := "AT1", refresh_token := none,
                 expires_in := 3600, created_at := 0, expires_at := 3600,
                 scopes := none },
      auth_flow := UnknownFlow.mk }
    [NetCall.api (buildRequest "GET" "/me" "AT1" none none)]
    rfl
    (buildRequest "GET" "/me" "AT1" none none)
    (List.mem_singleton.mpr rfl)

/-- Claim C10: the from-access-token constructors (AuthCode and
AuthCodePkce) store auto-refresh as the conjunction of the requested flag
and the presence of a refresh secret in the supplied Token; hence a client
built from a non-refreshable Token has auto-refresh false, and a request
on it with an expired token fails with ExpiredToken (no refresh attempt,
no network call). -/
theorem claim_C10 {Q P T : Type} (ar : Bool) (tok : Token)
    (res : HttpResponse)
    (envelopeDec : List Nat → Except String (Nat × String))
    (hs : isSuccessStatus res.status = true) :
    (AuthCodeClient.fromAccessToken (Q := Q) (P := P) ar tok (Except.ok res)
        envelopeDec
      = (Except.ok { auto_refresh := ar && tok.refresh_token.isSome,
                     token := tok,
                     auth_flow := { csrf_token := "not needed" } },
         [NetCall.probe (API_URL ++ "/markets") tok.secret])) ∧
    (AuthCodePkceClient.fromAccessToken (Q := Q) (P := P) ar tok
        (Except.ok res) envelopeDec
      = (Except.ok { auto_refresh := ar && tok.refresh_token.isSome,
                     token := tok,
                     auth_flow := { csrf_token := "not needed",
                                    pkce_verifier := none } },
         [NetCall.probe (API_URL ++ "/recommendations/available-genre-seeds")
            tok.secret])) ∧
    (tok.refresh_token = none →
      ∀ (now refreshNow : Int) (refreshResp : Except Error Token)
        (method endpoint : String) (query : Option Q) (body : Option (Body P))
        (apiResp : Except String HttpResponse)
        (jsonDec : List Nat → Except String T)
        (bareDec : List Nat → Option T)
        (envDec2 : List Nat → Except String (Nat × String)),
        tok.isExpired now = true →
        Client.request
            { auto_refresh := ar && tok.refresh_token.isSome, token := tok,
              auth_flow := AuthCodeFlow.mk "not needed" }
            now refreshNow refreshResp method endpoint query body apiResp
            jsonDec bareDec envDec2
          = some (Except.error Error.expiredToken,
              { auto_refresh := ar && tok.refresh_token.isSome, token := tok,
                auth_flow := AuthCodeFlow.mk "not needed" }, [])) := by
  refine ⟨?_, ?_, ?_⟩
  · simp only [AuthCodeClient.fromAccessToken, hs]
    rfl
  · simp only [AuthCodePkceClient.fromAccessToken, hs]
    rfl
  · intro hnone now refreshNow refreshResp method endpoint query body apiResp
      jsonDec bareDec envDec2 hexp
    exact requestExpiredOff _ now refreshNow refreshResp method endpoint query
      body apiResp jsonDec bareDec envDec2 hexp (by simp [hnone])

/-- Claim C10 witness: a non-refreshable token with the flag requested true
still yields auto-refresh false, and its expired request fails locally. -/
theorem claim_C10_witness :
    (AuthCodeClient.fromAccessToken (Q := Unit) (P := Unit) true
        { access_token := "AT1", refresh_token := none, expires_in := 3600,
          created_at := 0, expires_at := 3600, scopes := none }
        (Except.ok { status := 200, bytes := [] })
        (fun _ => Except.error "no envelope")
      = (Except.ok
          { auto_refresh := true && (Option.none (α := String)).isSome,
            token := { access_token := "AT1", refresh_token := none,
                       expires_in := 3600, created_at := 0,
                       expires_at := 3600, scopes := none },
            auth_flow := { csrf_token := "not needed" } },
         [NetCall.probe (API_URL ++ "/markets") "AT1"])) :=
  (claim_C10 (T := Nil) true
    { access_token := "AT1", refresh_token := none, expires_in := 3600,
      created_at := 0, expires_at := 3600, scopes := none }
    { status := 200, bytes := [] }
    (fun _ => Except.error "no envelope") rfl).1
